import Mathlib

/-!
Shallow embedding of the process/IPC/NIC core of the JOS-style kernel:
`src/kern/syscall.c`, `src/lib/fork.c` (duppage) and `src/kern/e1000.c`.

Machine integers are modelled as `Nat` (all the relevant code paths only
compare, mask and store them; masks are applied explicitly where the C code
truncates).  Fallible operations return an `Int` error code (negative) paired
with the successor state, exactly as the C functions return `int` and mutate
kernel state.

Helper routines from `kern/pmap.c`, `kern/env.c`, `inc/mmu.h`, `inc/error.h`
and `inc/memlayout.h` are not part of the given sources; they are modelled
from the specification (section 3, 4.1 and 4.2) and carry a doc comment
saying so.
-/

deriving instance DecidableEq for Except

namespace Jos

/-- Modelled from the spec: page size of the address-space manager
(`PGSIZE` from `inc/mmu.h`, which is not among the given sources). -/
def PGSIZE : Nat := 4096

/-- Modelled from the spec: the user/kernel split address (`UTOP` from
`inc/memlayout.h`, not among the given sources).  Only its page alignment
and its role as an upper bound are used. -/
def UTOP : Nat := 0xeec00000

/-- Modelled from the spec: number of slots of the fixed-size environment
table (`NENV` from `inc/env.h`, not among the given sources). -/
def NENV : Nat := 1024

/-- Page-table permission bit: present (`PTE_P`, `inc/mmu.h`). -/
def PTE_P : Nat := 0x001

/-- Page-table permission bit: writable (`PTE_W`, `inc/mmu.h`). -/
def PTE_W : Nat := 0x002

/-- Page-table permission bit: user accessible (`PTE_U`, `inc/mmu.h`). -/
def PTE_U : Nat := 0x004

/-- Page-table permission bits available to software (`PTE_AVAIL`,
`inc/mmu.h`). -/
def PTE_AVAIL : Nat := 0xE00

/-- Copy-on-write marker bit, from `src/lib/fork.c` line 8. -/
def PTE_COW : Nat := 0x800

/-- Modelled from the spec: the set of permission bits a syscall may request
(`PTE_SYSCALL` from `inc/mmu.h`, not among the given sources): the allowed
set is present, writable, user-accessible and the available bits. -/
def PTE_SYSCALL : Nat := PTE_AVAIL ||| PTE_P ||| PTE_W ||| PTE_U

/-- Bitwise complement of `PTE_SYSCALL` on 32-bit words, as computed by the
C expression `~PTE_SYSCALL` on an `int` permission argument. -/
def NOT_PTE_SYSCALL : Nat := 0xFFFFFFFF ^^^ PTE_SYSCALL

/-- Modelled from the spec: distinct error codes (`inc/error.h` is not among
the given sources; syscalls return the negated code).  Only distinctness and
positivity matter. -/
def E_UNSPECIFIED : Int := 1

/-- Modelled from the spec: error code for a bad environment handle. -/
def E_BAD_ENV : Int := 2

/-- Modelled from the spec: error code for an invalid argument. -/
def E_INVAL : Int := 3

/-- Modelled from the spec: error code for memory exhaustion. -/
def E_NO_MEM : Int := 4

/-- Modelled from the spec: error code for environment-table exhaustion. -/
def E_NO_FREE_ENV : Int := 5

/-- Modelled from the spec: error code for a send to a non-receiving
environment. -/
def E_IPC_NOT_RECV : Int := 7

/-- Modelled from the spec: error code for a full transmit ring
(`E_NET_QUEUE_FULL`, this repository's addition to `inc/error.h`). -/
def E_NET_QUEUE_FULL : Int := 13

/-- Modelled from the spec: error code for an empty receive ring
(`E_NET_QUEUE_EMPTY`, this repository's addition to `inc/error.h`). -/
def E_NET_QUEUE_EMPTY : Int := 14

/-- Modelled from the spec: run states of an environment, section 3 of the
spec ({FREE, RUNNABLE, NOT_RUNNABLE, DYING}; `inc/env.h` is not among the
given sources). -/
inductive EnvStatus where
  | ENV_FREE
  | ENV_RUNNABLE
  | ENV_NOT_RUNNABLE
  | ENV_DYING
deriving DecidableEq, Inhabited

/-- Saved register state of an environment (`struct Trapframe`).  Only the
general-purpose registers and control words the claims mention are kept;
`reg_eax` is the syscall return-value register. -/
structure Trapframe where
  reg_edi : Nat
  reg_esi : Nat
  reg_ebp : Nat
  reg_ebx : Nat
  reg_edx : Nat
  reg_ecx : Nat
  reg_eax : Nat
  tf_eip : Nat
  tf_esp : Nat
  tf_eflags : Nat
deriving DecidableEq, Inhabited

/-- A user address space: association list from virtual page number
(`va / PGSIZE`) to (physical page, permission bits).  The first entry with a
given key is the live mapping; `page_insert` removes the old entry first,
mirroring the remove-then-insert discipline of `kern/pmap.c`. -/
def Pgdir : Type := List (Nat × Nat × Nat)

instance : DecidableEq Pgdir := by
  unfold Pgdir
  infer_instance

instance : Inhabited Pgdir := ⟨([] : List (Nat × Nat × Nat))⟩

/-- One environment (`struct Env` from `inc/env.h`, fields restricted to
those the claims are about: identity, parent, run state, address space,
saved registers, page-fault upcall and the five rendezvous mailbox
fields). -/
structure Env where
  env_id : Nat
  env_parent_id : Nat
  env_status : EnvStatus
  env_pgdir : Pgdir
  env_tf : Trapframe
  env_pgfault_upcall : Nat
  env_ipc_recving : Bool
  env_ipc_dstva : Nat
  env_ipc_from : Nat
  env_ipc_value : Nat
  env_ipc_perm : Nat
deriving DecidableEq, Inhabited

/-- Kernel state: the fixed environment table (indexed by environment
index), the index of the running environment, and the free physical-page
pool.  Physical pages are identified by number; an index absent from `envs`
behaves like a permanently free slot. -/
structure Kernel where
  envs : List Env
  cur : Nat
  page_free_list : List Nat
deriving DecidableEq, Inhabited

/-- The running environment (`curenv`). -/
def curenv (s : Kernel) : Env := s.envs.getD s.cur default

/-- Lookup of a virtual page number in an address space. -/
def pgdir_lookup : List (Nat × Nat × Nat) → Nat → Option (Nat × Nat)
  | [], _ => none
  | (k, pp, pm) :: rest, pn => if k = pn then some (pp, pm) else pgdir_lookup rest pn

/-- Modelled from the spec: `page_lookup` from `kern/pmap.c` (not among the
given sources) — "look up the physical page and current permissions bound
to a virtual address" (spec 4.1).  Returns the physical page together with
the permission bits of the page-table entry. -/
def page_lookup (pgdir : Pgdir) (va : Nat) : Option (Nat × Nat) :=
  pgdir_lookup pgdir (va / PGSIZE)

/-- Modelled from the spec: `page_remove` from `kern/pmap.c` (not among the
given sources) — "unmap a virtual address (no-op if unmapped)" (spec 4.1). -/
def page_remove (pgdir : Pgdir) (va : Nat) : Pgdir :=
  List.filter (fun e => e.1 != va / PGSIZE) pgdir

/-- Modelled from the spec: `page_insert` from `kern/pmap.c` (not among the
given sources) — map a physical page at a virtual address with the given
permissions, removing any previous mapping at that address first (spec 4.1).
Exhaustion of page-table-construction pages is not modelled, so the modelled
insert always succeeds. -/
def page_insert (pgdir : Pgdir) (pp : Nat) (va : Nat) (perm : Nat) : Pgdir :=
  (va / PGSIZE, pp, perm) :: page_remove pgdir va

/-- Modelled from the spec: `page_alloc` from `kern/pmap.c` (not among the
given sources) — take a page off the free physical-page pool, or fail when
the pool is empty (spec 3: pages come from a fixed pool). -/
def page_alloc (s : Kernel) : Option (Nat × Kernel) :=
  match s.page_free_list with
  | [] => none
  | pp :: rest => some (pp, { s with page_free_list := rest })

/-- Environment index encoded in a handle (`ENVX` from `inc/env.h`). -/
def ENVX (envid : Nat) : Nat := envid % NENV

/-- Modelled from the spec: `envid2env` from `kern/env.c` (not among the
given sources) — resolve a generation-tagged handle (spec 4.2): handle 0 is
the caller; otherwise the slot's stored id must match the handle and the
slot must not be free; with `checkperm` the target must be the caller or a
direct child of the caller. -/
def envid2env (s : Kernel) (envid : Nat) (checkperm : Bool) : Except Int Nat :=
  if envid = 0 then Except.ok s.cur
  else
    match s.envs[ENVX envid]? with
    | none => Except.error (-E_BAD_ENV)
    | some e =>
      if e.env_status = EnvStatus.ENV_FREE ∨ e.env_id ≠ envid then
        Except.error (-E_BAD_ENV)
      else if checkperm ∧ ENVX envid ≠ s.cur ∧ e.env_parent_id ≠ (curenv s).env_id then
        Except.error (-E_BAD_ENV)
      else Except.ok (ENVX envid)

/-- `sys_page_alloc` from `src/kern/syscall.c` lines 193-227, with the
checks, the allocation and the insert in the source's order (note the
source allocates the page before resolving the envid and does not free it
on the error paths). -/
def sys_page_alloc (s : Kernel) (envid : Nat) (va : Nat) (perm : Nat) : Int × Kernel :=
  if UTOP ≤ va ∨ va % PGSIZE ≠ 0 then (-E_INVAL, s)
  else if perm &&& NOT_PTE_SYSCALL ≠ 0 ∨ perm &&& (PTE_U ||| PTE_P) = 0 then (-E_INVAL, s)
  else
    match page_alloc s with
    | none => (-E_NO_MEM, s)
    | some (pp, s1) =>
      match envid2env s1 envid true with
      | Except.error e => (e, s1)
      | Except.ok idx =>
        let env := s1.envs.getD idx default
        let env1 := { env with env_pgdir := page_insert env.env_pgdir pp va perm }
        (0, { s1 with envs := s1.envs.set idx env1 })

/-- `sys_page_map` from `src/kern/syscall.c` lines 245-293: resolve both
handles with permission checking, validate both addresses and the requested
permission bits, look the source mapping up, refuse write escalation, and
install the page in the destination address space. -/
def sys_page_map (s : Kernel) (srcenvid : Nat) (srcva : Nat)
    (dstenvid : Nat) (dstva : Nat) (perm : Nat) : Int × Kernel :=
  match envid2env s srcenvid true with
  | Except.error e => (e, s)
  | Except.ok si =>
    match envid2env s dstenvid true with
    | Except.error e => (e, s)
    | Except.ok di =>
      if UTOP ≤ srcva ∨ srcva % PGSIZE ≠ 0 ∨ UTOP ≤ dstva ∨ dstva % PGSIZE ≠ 0 then
        (-E_INVAL, s)
      else if perm &&& NOT_PTE_SYSCALL ≠ 0 ∨ perm &&& (PTE_U ||| PTE_P) = 0 then
        (-E_INVAL, s)
      else
        match page_lookup (s.envs.getD si default).env_pgdir srcva with
        | none => (-E_INVAL, s)
        | some (pp, pte) =>
          if perm &&& PTE_W ≠ 0 ∧ pte &&& PTE_W = 0 then (-E_INVAL, s)
          else
            let dst := s.envs.getD di default
            let dst1 := { dst with env_pgdir := page_insert dst.env_pgdir pp dstva perm }
            (0, { s with envs := s.envs.set di dst1 })

/-- `sys_page_unmap` from `src/kern/syscall.c` lines 302-313. -/
def sys_page_unmap (s : Kernel) (envid : Nat) (va : Nat) : Int × Kernel :=
  match envid2env s envid true with
  | Except.error e => (e, s)
  | Except.ok idx =>
    if UTOP ≤ va ∨ va % PGSIZE ≠ 0 then (-E_INVAL, s)
    else
      let env := s.envs.getD idx default
      let env1 := { env with env_pgdir := page_remove env.env_pgdir va }
      (0, { s with envs := s.envs.set idx env1 })

/-- `sys_ipc_try_send` from `src/kern/syscall.c` lines 354-413, with the
source's checks in the source's order.  Early returns of the C body are the
`Except.error` outcomes of the inner page step; the straight-line mailbox
updates after the `if`/`else` are the common tail.  The possible
`page_insert` failure of the C code (page-table-construction memory) is not
modelled, since the modelled insert always succeeds. -/
def sys_ipc_try_send (s : Kernel) (envid : Nat) (value : Nat)
    (srcva : Nat) (perm : Nat) : Int × Kernel :=
  match envid2env s envid false with
  | Except.error e => (e, s)
  | Except.ok di =>
    let dstenv := s.envs.getD di default
    if dstenv.env_ipc_recving = false then (-E_IPC_NOT_RECV, s)
    else
      let step : Except Int Env :=
        if srcva < UTOP then
          if srcva % PGSIZE ≠ 0 then Except.error (-E_INVAL)
          else if perm &&& NOT_PTE_SYSCALL ≠ 0 ∨ perm &&& (PTE_U ||| PTE_P) = 0 then
            Except.error (-E_INVAL)
          else
            match page_lookup (curenv s).env_pgdir srcva with
            | none => Except.error (-E_INVAL)
            | some (pp, srcva_pte) =>
              if perm &&& PTE_W ≠ 0 ∧ srcva_pte &&& PTE_W = 0 then Except.error (-E_INVAL)
              else if dstenv.env_ipc_dstva < UTOP then
                Except.ok { dstenv with
                  env_pgdir := page_insert dstenv.env_pgdir pp dstenv.env_ipc_dstva perm,
                  env_ipc_perm := perm }
              else Except.ok dstenv
        else Except.ok { dstenv with env_ipc_perm := 0 }
      match step with
      | Except.error e => (e, s)
      | Except.ok d1 =>
        let d2 := { d1 with
          env_ipc_recving := false,
          env_ipc_from := (curenv s).env_id,
          env_ipc_value := value,
          env_tf := { d1.env_tf with reg_eax := 0 },
          env_status := EnvStatus.ENV_RUNNABLE }
        (0, { s with envs := s.envs.set di d2 })

/-- `sys_ipc_recv` from `src/kern/syscall.c` lines 426-439: validate the
destination address, mark the caller blocked and receiving, record the
destination address when one was supplied, and yield.  The yielded state is
returned; the eventual 0 return value of the paused syscall is materialised
by the sender writing `reg_eax`. -/
def sys_ipc_recv (s : Kernel) (dstva : Nat) : Int × Kernel :=
  if dstva < UTOP ∧ dstva % PGSIZE ≠ 0 then (-E_INVAL, s)
  else
    let c := curenv s
    let c1 := { c with
      env_status := EnvStatus.ENV_NOT_RUNNABLE,
      env_ipc_recving := true }
    let c2 := if dstva < UTOP then { c1 with env_ipc_dstva := dstva } else c1
    (0, { s with envs := s.envs.set s.cur c2 })

/-- Index of the first free slot of the environment table, starting the
count at `i`. -/
def find_free : List Env → Nat → Option Nat
  | [], _ => none
  | e :: rest, i =>
    if e.env_status = EnvStatus.ENV_FREE then some i else find_free rest (i + 1)

/-- Modelled from the spec: `env_alloc` from `kern/env.c` (not among the
given sources) — take a free slot of the fixed environment table, give it a
fresh generation-tagged handle ("index + incarnation counter", spec 3, kept
positive), record the parent, clear the mailbox and give it an empty user
address space and a fresh register state; a table with no free slot is a
reported exhaustion error.  The memory needed for the new page directory is
not modelled. -/
def env_alloc (s : Kernel) (parent_id : Nat) : Except Int (Kernel × Nat) :=
  match find_free s.envs 0 with
  | none => Except.error (-E_NO_FREE_ENV)
  | some idx =>
    let old := s.envs.getD idx default
    let new_id := (old.env_id / NENV + 1) * NENV + idx
    let e : Env := {
      env_id := new_id,
      env_parent_id := parent_id,
      env_status := EnvStatus.ENV_RUNNABLE,
      env_pgdir := ([] : List (Nat × Nat × Nat)),
      env_tf := default,
      env_pgfault_upcall := 0,
      env_ipc_recving := false,
      env_ipc_dstva := 0,
      env_ipc_from := 0,
      env_ipc_value := 0,
      env_ipc_perm := 0 }
    Except.ok ({ s with envs := s.envs.set idx e }, idx)

/-- `sys_exofork` from `src/kern/syscall.c` lines 79-100: allocate an
environment with the caller as parent, copy the caller's saved registers
into it, zero its return-value register, mark it not runnable, and return
its handle. -/
def sys_exofork (s : Kernel) : Int × Kernel :=
  match env_alloc s (curenv s).env_id with
  | Except.error e => (e, s)
  | Except.ok (s1, idx) =>
    let env := s1.envs.getD idx default
    let env1 := { env with
      env_tf := { (curenv s1).env_tf with reg_eax := 0 },
      env_status := EnvStatus.ENV_NOT_RUNNABLE }
    (Int.ofNat env1.env_id, { s1 with envs := s1.envs.set idx env1 })

/-- `duppage` from `src/lib/fork.c` lines 69-114: the caller (the forking
parent, `curenv`) reads its own page-table entry for page `pn` through
`uvpt`; a writable or copy-on-write mapping is installed in the child as
present+user+COW and then re-installed in the parent with the same bits; any
other mapping is installed in the child as present+user.  The panics of the
C code (absent entry, failed map) are modelled as error returns. -/
def duppage (s : Kernel) (envid : Nat) (pn : Nat) : Int × Kernel :=
  match page_lookup (curenv s).env_pgdir (pn * PGSIZE) with
  | none => (-E_UNSPECIFIED, s)
  | some (_pp, pte) =>
    if pte &&& PTE_P = 0 then (-E_UNSPECIFIED, s)
    else
      let addr := pn * PGSIZE
      if pte &&& (PTE_W ||| PTE_COW) ≠ 0 then
        let perm := PTE_P ||| PTE_U ||| PTE_COW
        let r1 := sys_page_map s 0 addr envid addr perm
        if r1.1 < 0 then (r1.1, r1.2)
        else
          let r2 := sys_page_map r1.2 0 addr 0 addr perm
          if r2.1 < 0 then (r2.1, r2.2) else (0, r2.2)
      else
        let perm := PTE_P ||| PTE_U
        let r := sys_page_map s 0 addr envid addr perm
        if r.1 < 0 then (r.1, r.2) else (0, r.2)

/-- Capacity of the transmit descriptor ring (`E1000_TX_DESCRIPTORS_COUNT`,
`src/kern/e1000.h` line 105). -/
def E1000_TX_DESCRIPTORS_COUNT : Nat := 64

/-- Capacity of one transmit DMA buffer (`E1000_TX_BUFFER_SIZE`,
`src/kern/e1000.h` line 106). -/
def E1000_TX_BUFFER_SIZE : Nat := 2048

/-- Capacity of the receive descriptor ring (`E1000_RX_DESCRIPTORS_COUNT`,
`src/kern/e1000.h` line 108). -/
def E1000_RX_DESCRIPTORS_COUNT : Nat := 128

/-- Capacity of one receive DMA buffer (`E1000_RX_BUFFER_SIZE`,
`src/kern/e1000.h` line 109). -/
def E1000_RX_BUFFER_SIZE : Nat := 2048

/-- Descriptor-done status bit (`E1000_TX_DX_STAT_DD`, `src/kern/e1000.h`
line 113), used by both rings. -/
def E1000_TX_DX_STAT_DD : Nat := 0x01

/-- Transmit descriptor (`union e1000_tx_desc`, `src/kern/e1000.h`).  The
`status` byte carries the descriptor-done bit. -/
structure TxDesc where
  buffer_addr : Nat
  length : Nat
  cso : Nat
  cmd : Nat
  status : Nat
  css : Nat
  special : Nat
deriving DecidableEq, Inhabited

/-- Receive descriptor (`struct e1000_rx_desc`, `src/kern/e1000.h`). -/
structure RxDesc where
  buffer_addr : Nat
  length : Nat
  csum : Nat
  status : Nat
  errors : Nat
  special : Nat
deriving DecidableEq, Inhabited

/-- Driver state from `src/kern/e1000.c`: the two descriptor rings, their
DMA buffers (byte lists), and the two software-advanced tail registers
(`TDT`, `RDT`).  The head registers are hardware-owned and never read by the
two modelled operations, so they are omitted. -/
structure E1000 where
  tx_ring : List TxDesc
  tx_bufs : List (List Nat)
  tdt : Nat
  rx_ring : List RxDesc
  rx_bufs : List (List Nat)
  rdt : Nat
deriving DecidableEq, Inhabited

/-- `e1000_try_transmit_packet` from `src/kern/e1000.c` lines 101-132:
reject an oversized packet; report queue-full when the descriptor at the
tail is still hardware-owned; otherwise clear its done bit, record the
length, copy the caller's bytes into the slot's DMA buffer and advance the
tail modulo the ring capacity.  `memcpy` overwrites the first
`packet.length` bytes of the 2048-byte buffer and keeps the rest. -/
def e1000_try_transmit_packet (s : E1000) (packet : List Nat) : Int × E1000 :=
  if packet.length > E1000_TX_BUFFER_SIZE then (-E_INVAL, s)
  else
    let tail_index := s.tdt
    let current_descriptor := s.tx_ring.getD tail_index default
    if current_descriptor.status &&& E1000_TX_DX_STAT_DD = 0 then (-E_NET_QUEUE_FULL, s)
    else
      let d1 := { current_descriptor with
        status := current_descriptor.status &&& 0xFE,
        length := packet.length }
      let buf := s.tx_bufs.getD tail_index []
      (0, { s with
        tx_ring := s.tx_ring.set tail_index d1,
        tx_bufs := s.tx_bufs.set tail_index (packet ++ buf.drop packet.length),
        tdt := (tail_index + 1) % E1000_TX_DESCRIPTORS_COUNT })

/-- Outcome of one receive attempt: the returned code, the successor driver
state, the bytes written into the caller's buffer (none when nothing was
copied), and the value written through the packet-size out-pointer (none
when nothing was written). -/
structure RecvResult where
  ret : Int
  st : E1000
  data_out : Option (List Nat)
  size_out : Option Nat
deriving DecidableEq, Inhabited

/-- `e1000_try_recv_packet` from `src/kern/e1000.c` lines 134-167: inspect
the slot one past the tail; an unfilled slot is queue-empty; the packet
length is written through the out-pointer (when non-null) before the size
check; a packet longer than the caller's buffer is an invalid-argument
error that consumes nothing; otherwise the packet bytes are copied out, the
slot's done bit is cleared and the tail advances to the inspected slot. -/
def e1000_try_recv_packet (s : E1000) (buffer_size : Nat)
    (packet_size_null : Bool) : RecvResult :=
  let tail_index := (s.rdt + 1) % E1000_RX_DESCRIPTORS_COUNT
  let current_descriptor := s.rx_ring.getD tail_index default
  if current_descriptor.status &&& E1000_TX_DX_STAT_DD = 0 then
    { ret := -E_NET_QUEUE_EMPTY, st := s, data_out := none, size_out := none }
  else
    let size_out := if packet_size_null then none else some current_descriptor.length
    if current_descriptor.length > buffer_size then
      { ret := -E_INVAL, st := s, data_out := none, size_out := size_out }
    else
      let d1 := { current_descriptor with status := current_descriptor.status &&& 0xFE }
      { ret := 0,
        st := { s with rx_ring := s.rx_ring.set tail_index d1, rdt := tail_index },
        data_out := some ((s.rx_bufs.getD tail_index []).take current_descriptor.length),
        size_out := size_out }

/-! ### Helper lemmas -/

theorem getD_set_self {α} (l : List α) (i : Nat) (a d : α) (h : i < l.length) :
    (l.set i a).getD i d = a := by
  rw [List.getD_eq_getElem?_getD, List.getElem?_set_eq_of_lt a h]
  rfl

theorem getD_set_ne {α} (l : List α) (i j : Nat) (a d : α) (h : i ≠ j) :
    (l.set i a).getD j d = l.getD j d := by
  rw [List.getD_eq_getElem?_getD, List.getElem?_set_ne h, ← List.getD_eq_getElem?_getD]

theorem getD_eq_of_mem {α} (l : List α) (i : Nat) (x d : α) (h : l[i]? = some x) :
    l.getD i d = x := by
  rw [List.getD_eq_getElem?_getD, h]
  rfl

theorem lt_length_of_mem {α} (l : List α) (i : Nat) (x : α) (h : l[i]? = some x) :
    i < l.length :=
  (List.getElem?_eq_some.mp h).1

theorem page_lookup_insert (pgdir : Pgdir) (pp va perm : Nat) :
    page_lookup (page_insert pgdir pp va perm) va = some (pp, perm) := by
  simp [page_lookup, page_insert, pgdir_lookup]

theorem find_free_spec (l : List Env) : ∀ (i j : Nat), find_free l i = some j →
    i ≤ j ∧ j - i < l.length ∧
      (l.getD (j - i) default).env_status = EnvStatus.ENV_FREE := by
  induction l with
  | nil => intro i j h; simp [find_free] at h
  | cons e rest ih =>
    intro i j h
    by_cases he : e.env_status = EnvStatus.ENV_FREE
    · simp [find_free, he] at h
      subst h
      simp [he]
    · simp [find_free, he] at h
      obtain ⟨h1, h2, h3⟩ := ih (i + 1) j h
      refine ⟨by omega, by simp; omega, ?_⟩
      have : j - i = (j - (i + 1)) + 1 := by omega
      rw [this]
      simpa using h3

/-! ### Branch equations for `sys_ipc_try_send` -/

theorem send_not_recv (s : Kernel) (envid value srcva perm di : Nat)
    (hdi : envid2env s envid false = Except.ok di)
    (hr : (s.envs.getD di default).env_ipc_recving = false) :
    sys_ipc_try_send s envid value srcva perm = (-E_IPC_NOT_RECV, s) := by
  unfold sys_ipc_try_send
  rw [hdi]
  simp only [hr, if_pos]

theorem send_err_align (s : Kernel) (envid value srcva perm di : Nat)
    (hdi : envid2env s envid false = Except.ok di)
    (hr : (s.envs.getD di default).env_ipc_recving = true)
    (hs : srcva < UTOP)
    (ha : srcva % PGSIZE ≠ 0) :
    sys_ipc_try_send s envid value srcva perm = (-E_INVAL, s) := by
  have h1 : ((s.envs.getD di default).env_ipc_recving = false) = False := by rw [hr]; simp
  unfold sys_ipc_try_send
  simp only [hdi, h1, eq_true hs, eq_true ha, if_true, if_false]

theorem send_err_perm (s : Kernel) (envid value srcva perm di : Nat)
    (hdi : envid2env s envid false = Except.ok di)
    (hr : (s.envs.getD di default).env_ipc_recving = true)
    (hs : srcva < UTOP)
    (ha : srcva % PGSIZE = 0)
    (hp : perm &&& NOT_PTE_SYSCALL ≠ 0 ∨ perm &&& (PTE_U ||| PTE_P) = 0) :
    sys_ipc_try_send s envid value srcva perm = (-E_INVAL, s) := by
  have h1 : ((s.envs.getD di default).env_ipc_recving = false) = False := by rw [hr]; simp
  have h3 : (srcva % PGSIZE ≠ 0) = False := by simp [ha]
  unfold sys_ipc_try_send
  simp only [hdi, h1, eq_true hs, h3, eq_true hp, if_true, if_false]

theorem send_err_unmapped (s : Kernel) (envid value srcva perm di : Nat)
    (hdi : envid2env s envid false = Except.ok di)
    (hr : (s.envs.getD di default).env_ipc_recving = true)
    (hs : srcva < UTOP)
    (ha : srcva % PGSIZE = 0)
    (hp : ¬ (perm &&& NOT_PTE_SYSCALL ≠ 0 ∨ perm &&& (PTE_U ||| PTE_P) = 0))
    (hlk : page_lookup (curenv s).env_pgdir srcva = none) :
    sys_ipc_try_send s envid value srcva perm = (-E_INVAL, s) := by
  have h1 : ((s.envs.getD di default).env_ipc_recving = false) = False := by rw [hr]; simp
  have h3 : (srcva % PGSIZE ≠ 0) = False := by simp [ha]
  unfold sys_ipc_try_send
  simp only [hdi, h1, eq_true hs, h3, eq_false hp, hlk, if_true, if_false]

theorem send_err_escalate (s : Kernel) (envid value srcva perm di pp pte : Nat)
    (hdi : envid2env s envid false = Except.ok di)
    (hr : (s.envs.getD di default).env_ipc_recving = true)
    (hs : srcva < UTOP)
    (ha : srcva % PGSIZE = 0)
    (hp : ¬ (perm &&& NOT_PTE_SYSCALL ≠ 0 ∨ perm &&& (PTE_U ||| PTE_P) = 0))
    (hlk : page_lookup (curenv s).env_pgdir srcva = some (pp, pte))
    (hw : perm &&& PTE_W ≠ 0 ∧ pte &&& PTE_W = 0) :
    sys_ipc_try_send s envid value srcva perm = (-E_INVAL, s) := by
  have h1 : ((s.envs.getD di default).env_ipc_recving = false) = False := by rw [hr]; simp
  have h3 : (srcva % PGSIZE ≠ 0) = False := by simp [ha]
  unfold sys_ipc_try_send
  simp only [hdi, h1, eq_true hs, h3, eq_false hp, hlk, eq_true hw, if_true, if_false]

theorem send_ok_page (s : Kernel) (envid value srcva perm di pp pte : Nat)
    (hdi : envid2env s envid false = Except.ok di)
    (hr : (s.envs.getD di default).env_ipc_recving = true)
    (hs : srcva < UTOP)
    (ha : srcva % PGSIZE = 0)
    (hp : ¬ (perm &&& NOT_PTE_SYSCALL ≠ 0 ∨ perm &&& (PTE_U ||| PTE_P) = 0))
    (hlk : page_lookup (curenv s).env_pgdir srcva = some (pp, pte))
    (hw : ¬ (perm &&& PTE_W ≠ 0 ∧ pte &&& PTE_W = 0))
    (hd : (s.envs.getD di default).env_ipc_dstva < UTOP) :
    sys_ipc_try_send s envid value srcva perm =
      (0, { s with envs := s.envs.set di { (s.envs.getD di default) with
              env_pgdir := page_insert (s.envs.getD di default).env_pgdir pp
                (s.envs.getD di default).env_ipc_dstva perm,
              env_ipc_perm := perm,
              env_ipc_recving := false,
              env_ipc_from := (curenv s).env_id,
              env_ipc_value := value,
              env_tf := { (s.envs.getD di default).env_tf with reg_eax := 0 },
              env_status := EnvStatus.ENV_RUNNABLE } }) := by
  have h1 : ((s.envs.getD di default).env_ipc_recving = false) = False := by rw [hr]; simp
  have h3 : (srcva % PGSIZE ≠ 0) = False := by simp [ha]
  unfold sys_ipc_try_send
  simp only [hdi, h1, eq_true hs, h3, eq_false hp, hlk, eq_false hw, eq_true hd,
    if_true, if_false]

theorem send_ok_stale (s : Kernel) (envid value srcva perm di pp pte : Nat)
    (hdi : envid2env s envid false = Except.ok di)
    (hr : (s.envs.getD di default).env_ipc_recving = true)
    (hs : srcva < UTOP)
    (ha : srcva % PGSIZE = 0)
    (hp : ¬ (perm &&& NOT_PTE_SYSCALL ≠ 0 ∨ perm &&& (PTE_U ||| PTE_P) = 0))
    (hlk : page_lookup (curenv s).env_pgdir srcva = some (pp, pte))
    (hw : ¬ (perm &&& PTE_W ≠ 0 ∧ pte &&& PTE_W = 0))
    (hd : ¬ (s.envs.getD di default).env_ipc_dstva < UTOP) :
    sys_ipc_try_send s envid value srcva perm =
      (0, { s with envs := s.envs.set di { (s.envs.getD di default) with
              env_ipc_recving := false,
              env_ipc_from := (curenv s).env_id,
              env_ipc_value := value,
              env_tf := { (s.envs.getD di default).env_tf with reg_eax := 0 },
              env_status := EnvStatus.ENV_RUNNABLE } }) := by
  have h1 : ((s.envs.getD di default).env_ipc_recving = false) = False := by rw [hr]; simp
  have h3 : (srcva % PGSIZE ≠ 0) = False := by simp [ha]
  unfold sys_ipc_try_send
  simp only [hdi, h1, eq_true hs, h3, eq_false hp, hlk, eq_false hw, eq_false hd,
    if_true, if_false]

theorem send_ok_no_page (s : Kernel) (envid value srcva perm di : Nat)
    (hdi : envid2env s envid false = Except.ok di)
    (hr : (s.envs.getD di default).env_ipc_recving = true)
    (hs : ¬ srcva < UTOP) :
    sys_ipc_try_send s envid value srcva perm =
      (0, { s with envs := s.envs.set di { (s.envs.getD di default) with
              env_ipc_perm := 0,
              env_ipc_recving := false,
              env_ipc_from := (curenv s).env_id,
              env_ipc_value := value,
              env_tf := { (s.envs.getD di default).env_tf with reg_eax := 0 },
              env_status := EnvStatus.ENV_RUNNABLE } }) := by
  have h1 : ((s.envs.getD di default).env_ipc_recving = false) = False := by rw [hr]; simp
  unfold sys_ipc_try_send
  simp only [hdi, h1, eq_false hs, if_true, if_false]

/-- Inversion of a successful send: the returned state updates exactly the
receiver's slot, the mailbox is populated, the receiver is runnable with a
zeroed return register, and the page/permission outcome follows the
source/destination address cases of the code. -/
theorem sys_ipc_try_send_ok (s : Kernel) (envid value srcva perm di : Nat)
    (hdi : envid2env s envid false = Except.ok di)
    (h0 : (sys_ipc_try_send s envid value srcva perm).1 = 0) :
    ∃ d2 : Env,
      (sys_ipc_try_send s envid value srcva perm).2 =
        { s with envs := s.envs.set di d2 } ∧
      (s.envs.getD di default).env_ipc_recving = true ∧
      d2.env_ipc_recving = false ∧
      d2.env_status = EnvStatus.ENV_RUNNABLE ∧
      d2.env_id = (s.envs.getD di default).env_id ∧
      d2.env_parent_id = (s.envs.getD di default).env_parent_id ∧
      d2.env_ipc_from = (curenv s).env_id ∧
      d2.env_ipc_value = value ∧
      d2.env_tf = { (s.envs.getD di default).env_tf with reg_eax := 0 } ∧
      d2.env_ipc_dstva = (s.envs.getD di default).env_ipc_dstva ∧
      (if srcva < UTOP then
         ∃ pp pte, page_lookup (curenv s).env_pgdir srcva = some (pp, pte) ∧
           (if (s.envs.getD di default).env_ipc_dstva < UTOP then
              d2.env_pgdir = page_insert (s.envs.getD di default).env_pgdir pp
                  (s.envs.getD di default).env_ipc_dstva perm ∧
                d2.env_ipc_perm = perm
            else d2.env_pgdir = (s.envs.getD di default).env_pgdir ∧
              d2.env_ipc_perm = (s.envs.getD di default).env_ipc_perm)
       else d2.env_pgdir = (s.envs.getD di default).env_pgdir ∧
         d2.env_ipc_perm = 0) := by
  by_cases hr : (s.envs.getD di default).env_ipc_recving = false
  · rw [send_not_recv s envid value srcva perm di hdi hr] at h0
    simp [E_IPC_NOT_RECV] at h0
  · have hrt : (s.envs.getD di default).env_ipc_recving = true := by
      cases hb : (s.envs.getD di default).env_ipc_recving
      · exact absurd hb hr
      · rfl
    by_cases hs : srcva < UTOP
    · by_cases ha : srcva % PGSIZE = 0
      · by_cases hp : perm &&& NOT_PTE_SYSCALL ≠ 0 ∨ perm &&& (PTE_U ||| PTE_P) = 0
        · rw [send_err_perm s envid value srcva perm di hdi hrt hs ha hp] at h0
          simp [E_INVAL] at h0
        · cases hlk : page_lookup (curenv s).env_pgdir srcva with
          | none =>
            rw [send_err_unmapped s envid value srcva perm di hdi hrt hs ha hp hlk] at h0
            simp [E_INVAL] at h0
          | some v =>
            obtain ⟨pp, pte⟩ := v
            by_cases hw : perm &&& PTE_W ≠ 0 ∧ pte &&& PTE_W = 0
            · rw [send_err_escalate s envid value srcva perm di pp pte hdi hrt hs ha hp hlk hw]
                at h0
              simp [E_INVAL] at h0
            · by_cases hd : (s.envs.getD di default).env_ipc_dstva < UTOP
              · refine ⟨{ (s.envs.getD di default) with
                    env_pgdir := page_insert (s.envs.getD di default).env_pgdir pp
                      (s.envs.getD di default).env_ipc_dstva perm,
                    env_ipc_perm := perm,
                    env_ipc_recving := false,
                    env_ipc_from := (curenv s).env_id,
                    env_ipc_value := value,
                    env_tf := { (s.envs.getD di default).env_tf with reg_eax := 0 },
                    env_status := EnvStatus.ENV_RUNNABLE },
                  ?_, hrt, rfl, rfl, rfl, rfl, rfl, rfl, rfl, rfl, ?_⟩
                · rw [send_ok_page s envid value srcva perm di pp pte hdi hrt hs ha hp hlk hw hd]
                · rw [if_pos hs]
                  exact ⟨pp, pte, rfl, by rw [if_pos hd]; exact ⟨rfl, rfl⟩⟩
              · refine ⟨{ (s.envs.getD di default) with
                    env_ipc_recving := false,
                    env_ipc_from := (curenv s).env_id,
                    env_ipc_value := value,
                    env_tf := { (s.envs.getD di default).env_tf with reg_eax := 0 },
                    env_status := EnvStatus.ENV_RUNNABLE },
                  ?_, hrt, rfl, rfl, rfl, rfl, rfl, rfl, rfl, rfl, ?_⟩
                · rw [send_ok_stale s envid value srcva perm di pp pte hdi hrt hs ha hp hlk hw hd]
                · rw [if_pos hs]
                  exact ⟨pp, pte, rfl, by rw [if_neg hd]; exact ⟨rfl, rfl⟩⟩
      · rw [send_err_align s envid value srcva perm di hdi hrt hs ha] at h0
        simp [E_INVAL] at h0
    · refine ⟨{ (s.envs.getD di default) with
          env_ipc_perm := 0,
          env_ipc_recving := false,
          env_ipc_from := (curenv s).env_id,
          env_ipc_value := value,
          env_tf := { (s.envs.getD di default).env_tf with reg_eax := 0 },
          env_status := EnvStatus.ENV_RUNNABLE },
        ?_, hrt, rfl, rfl, rfl, rfl, rfl, rfl, rfl, rfl, ?_⟩
      · rw [send_ok_no_page s envid value srcva perm di hdi hrt hs]
      · rw [if_neg hs]
        exact ⟨rfl, rfl⟩

theorem getD_eq_default {α} (l : List α) (i : Nat) (d : α) (h : l.length ≤ i) :
    l.getD i d = d := by
  rw [List.getD_eq_getElem?_getD, List.getElem?_eq_none h]
  rfl

/-- Resolving the same handle again after the receiver's slot was rewritten
by a successful send still yields the receiver: the slot keeps its id and is
not free. -/
theorem envid2env_set_stable (s : Kernel) (envid di : Nat) (d2 : Env)
    (hdi : envid2env s envid false = Except.ok di)
    (hid : d2.env_id = (s.envs.getD di default).env_id)
    (hst : d2.env_status ≠ EnvStatus.ENV_FREE) :
    envid2env { s with envs := s.envs.set di d2 } envid false = Except.ok di := by
  unfold envid2env at hdi ⊢
  by_cases h0 : envid = 0
  · simp only [h0, if_pos] at hdi ⊢
    simpa using hdi
  · rw [if_neg h0] at hdi
    rw [if_neg h0]
    cases hget : s.envs[ENVX envid]? with
    | none =>
      simp only [hget] at hdi
      simp at hdi
    | some e =>
      by_cases hc : e.env_status = EnvStatus.ENV_FREE ∨ e.env_id ≠ envid
      · simp only [hget, eq_true hc, if_true] at hdi
        simp at hdi
      · simp only [hget, eq_false hc, if_false, Bool.false_eq_true, false_and] at hdi
        have hdieq : ENVX envid = di := by simpa using hdi
        subst hdieq
        have hlt : ENVX envid < s.envs.length := lt_length_of_mem s.envs (ENVX envid) e hget
        have hget2 : (s.envs.set (ENVX envid) d2)[ENVX envid]? = some d2 :=
          List.getElem?_set_eq_of_lt d2 hlt
        have henv : d2.env_id = envid := by
          rw [hid, getD_eq_of_mem s.envs (ENVX envid) e default hget]
          push_neg at hc
          exact hc.2
        have hcnew : ¬ (d2.env_status = EnvStatus.ENV_FREE ∨ d2.env_id ≠ envid) := by
          push_neg
          exact ⟨hst, by rw [henv]⟩
        simp only [hget2, eq_false hcnew, if_false, Bool.false_eq_true, false_and]

/-! ### Branch equations for `sys_page_map` -/

theorem page_map_ok (s : Kernel) (srcenvid srcva dstenvid dstva perm si di pp pte : Nat)
    (hsi : envid2env s srcenvid true = Except.ok si)
    (hdi : envid2env s dstenvid true = Except.ok di)
    (haddr : ¬ (UTOP ≤ srcva ∨ srcva % PGSIZE ≠ 0 ∨ UTOP ≤ dstva ∨ dstva % PGSIZE ≠ 0))
    (hp : ¬ (perm &&& NOT_PTE_SYSCALL ≠ 0 ∨ perm &&& (PTE_U ||| PTE_P) = 0))
    (hlk : page_lookup (s.envs.getD si default).env_pgdir srcva = some (pp, pte))
    (hw : ¬ (perm &&& PTE_W ≠ 0 ∧ pte &&& PTE_W = 0)) :
    sys_page_map s srcenvid srcva dstenvid dstva perm =
      (0, { s with envs := s.envs.set di { (s.envs.getD di default) with
              env_pgdir := page_insert (s.envs.getD di default).env_pgdir pp dstva perm } }) := by
  unfold sys_page_map
  simp only [hsi, hdi, eq_false haddr, eq_false hp, hlk, eq_false hw, if_true, if_false]

theorem page_map_err_addr (s : Kernel) (srcenvid srcva dstenvid dstva perm si di : Nat)
    (hsi : envid2env s srcenvid true = Except.ok si)
    (hdi : envid2env s dstenvid true = Except.ok di)
    (haddr : UTOP ≤ srcva ∨ srcva % PGSIZE ≠ 0 ∨ UTOP ≤ dstva ∨ dstva % PGSIZE ≠ 0) :
    sys_page_map s srcenvid srcva dstenvid dstva perm = (-E_INVAL, s) := by
  unfold sys_page_map
  simp only [hsi, hdi, eq_true haddr, if_true]

theorem page_map_err_perm (s : Kernel) (srcenvid srcva dstenvid dstva perm si di : Nat)
    (hsi : envid2env s srcenvid true = Except.ok si)
    (hdi : envid2env s dstenvid true = Except.ok di)
    (haddr : ¬ (UTOP ≤ srcva ∨ srcva % PGSIZE ≠ 0 ∨ UTOP ≤ dstva ∨ dstva % PGSIZE ≠ 0))
    (hp : perm &&& NOT_PTE_SYSCALL ≠ 0 ∨ perm &&& (PTE_U ||| PTE_P) = 0) :
    sys_page_map s srcenvid srcva dstenvid dstva perm = (-E_INVAL, s) := by
  unfold sys_page_map
  simp only [hsi, hdi, eq_false haddr, eq_true hp, if_true, if_false]

theorem page_map_err_unmapped (s : Kernel) (srcenvid srcva dstenvid dstva perm si di : Nat)
    (hsi : envid2env s srcenvid true = Except.ok si)
    (hdi : envid2env s dstenvid true = Except.ok di)
    (haddr : ¬ (UTOP ≤ srcva ∨ srcva % PGSIZE ≠ 0 ∨ UTOP ≤ dstva ∨ dstva % PGSIZE ≠ 0))
    (hp : ¬ (perm &&& NOT_PTE_SYSCALL ≠ 0 ∨ perm &&& (PTE_U ||| PTE_P) = 0))
    (hlk : page_lookup (s.envs.getD si default).env_pgdir srcva = none) :
    sys_page_map s srcenvid srcva dstenvid dstva perm = (-E_INVAL, s) := by
  unfold sys_page_map
  simp only [hsi, hdi, eq_false haddr, eq_false hp, hlk, if_true, if_false]

theorem page_map_err_escalate (s : Kernel) (srcenvid srcva dstenvid dstva perm si di pp pte : Nat)
    (hsi : envid2env s srcenvid true = Except.ok si)
    (hdi : envid2env s dstenvid true = Except.ok di)
    (haddr : ¬ (UTOP ≤ srcva ∨ srcva % PGSIZE ≠ 0 ∨ UTOP ≤ dstva ∨ dstva % PGSIZE ≠ 0))
    (hp : ¬ (perm &&& NOT_PTE_SYSCALL ≠ 0 ∨ perm &&& (PTE_U ||| PTE_P) = 0))
    (hlk : page_lookup (s.envs.getD si default).env_pgdir srcva = some (pp, pte))
    (hw : perm &&& PTE_W ≠ 0 ∧ pte &&& PTE_W = 0) :
    sys_page_map s srcenvid srcva dstenvid dstva perm = (-E_INVAL, s) := by
  unfold sys_page_map
  simp only [hsi, hdi, eq_false haddr, eq_false hp, hlk, eq_true hw, if_true, if_false]

/-! ### Concrete states used by counterexamples and witnesses -/

/-- An all-zero register file. -/
def tf0 : Trapframe :=
  { reg_edi := 0, reg_esi := 0, reg_ebp := 0, reg_ebx := 0, reg_edx := 0,
    reg_ecx := 0, reg_eax := 0, tf_eip := 0, tf_esp := 0, tf_eflags := 0 }

/-- A running environment in slot 0 (handle 1024) owning one page mapping:
virtual page 0 maps physical page 42 with present+writable+user bits. -/
def env_a : Env :=
  { env_id := 1024
    env_parent_id := 0
    env_status := EnvStatus.ENV_RUNNABLE
    env_pgdir := [(0, 42, 7)]
    env_tf := { tf0 with reg_eax := 99 }
    env_pgfault_upcall := 0
    env_ipc_recving := false
    env_ipc_dstva := 0
    env_ipc_from := 0
    env_ipc_value := 0
    env_ipc_perm := 0 }

/-- A kernel state with one environment and two free physical pages. -/
def k_one : Kernel := { envs := [env_a], cur := 0, page_free_list := [7, 8] }

/-- A receiver blocked in `sys_ipc_recv` in slot 1 (handle 1025), willing to
accept a page at address `0x2000`. -/
def recv_a : Env :=
  { env_id := 1025
    env_parent_id := 1024
    env_status := EnvStatus.ENV_NOT_RUNNABLE
    env_pgdir := []
    env_tf := tf0
    env_pgfault_upcall := 0
    env_ipc_recving := true
    env_ipc_dstva := 8192
    env_ipc_from := 0
    env_ipc_value := 0
    env_ipc_perm := 0 }

/-- Sender running in slot 0, receiver pending in slot 1. -/
def k_ipc : Kernel := { envs := [env_a, recv_a], cur := 0, page_free_list := [] }

/-- A pending receiver whose recorded destination address is not below the
user/kernel split and whose permissions mailbox field still holds leftover
bits from an earlier delivery. -/
def recv_stale : Env := { recv_a with env_ipc_dstva := UTOP, env_ipc_perm := 0xE07 }

/-- Sender in slot 0, stale receiver in slot 1. -/
def k_stale : Kernel := { envs := [env_a, recv_stale], cur := 0, page_free_list := [] }

/-! ### Claim theorems -/

/-- Claim C5: the permission validation of `sys_page_alloc` (and the
identical checks of `sys_page_map` and `sys_ipc_try_send`) is claimed to
reject any permission argument missing either the present or the
user-accessible bit.  The code's test `!(perm & (PTE_U | PTE_P))` accepts
any argument carrying at least one of the two bits: the call below passes
`perm = PTE_P` (no user bit) and succeeds, and likewise `perm = PTE_U` (no
present bit), contradicting the function's own comment ("make sure U,P are
set"). -/
theorem sys_page_alloc_accepts_lone_bit :
    (sys_page_alloc k_one 0 4096 PTE_P).1 = 0 ∧
    (sys_page_alloc k_one 0 4096 PTE_U).1 = 0 ∧
    (sys_page_alloc k_one 0 4096 0).1 = -E_INVAL := by
  decide

/-- Claim C7: `sys_page_alloc` is claimed to leave the free physical-page
pool untouched on every failed call.  The code takes a page off the pool
before resolving the envid and never returns it on the error paths: the
call below fails with the bad-envid error yet shrinks the pool from
`[7, 8]` to `[8]`. -/
theorem sys_page_alloc_leaks_on_bad_env :
    (sys_page_alloc k_one 2049 4096 7).1 = -E_BAD_ENV ∧
    (sys_page_alloc k_one 2049 4096 7).2.page_free_list ≠ k_one.page_free_list := by
  decide

/-- Claim C8: one transmit attempt either rejects an oversized packet with
the size error and no state change, reports queue-full on a hardware-owned
tail slot with no state change, or clears the slot's done bit, records the
length, copies exactly the caller's bytes into the slot's DMA buffer and
advances the tail modulo the ring capacity, touching nothing else. -/
theorem e1000_try_transmit_packet_spec (s : E1000) (packet : List Nat)
    (hring : s.tx_ring.length = E1000_TX_DESCRIPTORS_COUNT)
    (htail : s.tdt < E1000_TX_DESCRIPTORS_COUNT) :
    (E1000_TX_BUFFER_SIZE < packet.length →
       e1000_try_transmit_packet s packet = (-E_INVAL, s)) ∧
    (packet.length ≤ E1000_TX_BUFFER_SIZE →
       (s.tx_ring.getD s.tdt default).status &&& E1000_TX_DX_STAT_DD = 0 →
       e1000_try_transmit_packet s packet = (-E_NET_QUEUE_FULL, s)) ∧
    (packet.length ≤ E1000_TX_BUFFER_SIZE →
       (s.tx_ring.getD s.tdt default).status &&& E1000_TX_DX_STAT_DD ≠ 0 →
       (e1000_try_transmit_packet s packet).1 = 0 ∧
       (e1000_try_transmit_packet s packet).2.tx_ring =
         s.tx_ring.set s.tdt { s.tx_ring.getD s.tdt default with
           status := (s.tx_ring.getD s.tdt default).status &&& 0xFE,
           length := packet.length } ∧
       ((e1000_try_transmit_packet s packet).2.tx_ring.getD s.tdt default).status &&&
           E1000_TX_DX_STAT_DD = 0 ∧
       (e1000_try_transmit_packet s packet).2.tx_bufs =
         s.tx_bufs.set s.tdt (packet ++ (s.tx_bufs.getD s.tdt []).drop packet.length) ∧
       (e1000_try_transmit_packet s packet).2.tdt =
         (s.tdt + 1) % E1000_TX_DESCRIPTORS_COUNT ∧
       (e1000_try_transmit_packet s packet).2.rx_ring = s.rx_ring ∧
       (e1000_try_transmit_packet s packet).2.rx_bufs = s.rx_bufs ∧
       (e1000_try_transmit_packet s packet).2.rdt = s.rdt) := by
  refine ⟨?_, ?_, ?_⟩
  · intro hbig
    unfold e1000_try_transmit_packet
    rw [if_pos (by omega)]
  · intro hsz hdd
    unfold e1000_try_transmit_packet
    rw [if_neg (by omega), if_pos hdd]
  · intro hsz hdd
    unfold e1000_try_transmit_packet
    rw [if_neg (by omega), if_neg hdd]
    refine ⟨rfl, rfl, ?_, rfl, rfl, rfl, rfl, rfl⟩
    rw [getD_set_self _ _ _ _ (by omega)]
    show ((s.tx_ring.getD s.tdt default).status &&& 0xFE) &&& 1 = 0
    rw [Nat.and_assoc]
    simp

/-- A freshly usable NIC state: every transmit slot software-owned (done bit
set), every receive slot filled with a 3-byte packet, both tails at 0. -/
def nic0 : E1000 :=
  { tx_ring := List.replicate 64
      { buffer_addr := 0, length := 0, cso := 0, cmd := 3, status := 1, css := 0, special := 0 }
    tx_bufs := List.replicate 64 [9, 9, 9, 9]
    tdt := 0
    rx_ring := List.replicate 128
      { buffer_addr := 0, length := 3, csum := 0, status := 1, errors := 0, special := 0 }
    rx_bufs := List.replicate 128 [5, 6, 7, 8]
    rdt := 0 }

/-- Witness for claim C8: on a concrete ready ring, transmitting a 3-byte
packet succeeds and advances the tail. -/
theorem e1000_try_transmit_packet_spec_witness :
    nic0.tx_ring.length = E1000_TX_DESCRIPTORS_COUNT ∧
    nic0.tdt < E1000_TX_DESCRIPTORS_COUNT ∧
    (e1000_try_transmit_packet nic0 [1, 2, 3]).1 = 0 ∧
    (e1000_try_transmit_packet nic0 [1, 2, 3]).2.tdt = 1 := by
  have h := e1000_try_transmit_packet_spec nic0 [1, 2, 3] (by rfl) (by decide)
  exact ⟨by rfl, by decide, (h.2.2 (by decide) (by decide)).1, by decide⟩

/-- Claim C9: a receive attempt that finds a filled slot whose packet is
longer than the caller's buffer reports the invalid-argument error, copies
nothing, touches no descriptor and does not advance the tail; a subsequent
attempt with a large-enough buffer therefore retrieves that same packet and
consumes the slot. -/
theorem e1000_try_recv_packet_too_small (s : E1000) (buffer_size : Nat)
    (ns : Bool) (tail : Nat)
    (htail : tail = (s.rdt + 1) % E1000_RX_DESCRIPTORS_COUNT)
    (hdd : (s.rx_ring.getD tail default).status &&& E1000_TX_DX_STAT_DD ≠ 0)
    (hbig : buffer_size < (s.rx_ring.getD tail default).length) :
    (e1000_try_recv_packet s buffer_size ns).ret = -E_INVAL ∧
    (e1000_try_recv_packet s buffer_size ns).st = s ∧
    (e1000_try_recv_packet s buffer_size ns).data_out = none ∧
    (∀ bs2 : Nat, (s.rx_ring.getD tail default).length ≤ bs2 →
       (e1000_try_recv_packet (e1000_try_recv_packet s buffer_size ns).st bs2 ns).ret = 0 ∧
       (e1000_try_recv_packet (e1000_try_recv_packet s buffer_size ns).st bs2 ns).data_out =
         some ((s.rx_bufs.getD tail []).take (s.rx_ring.getD tail default).length) ∧
       (e1000_try_recv_packet (e1000_try_recv_packet s buffer_size ns).st bs2 ns).st.rdt =
         tail) := by
  subst htail
  unfold e1000_try_recv_packet
  rw [if_neg hdd, if_pos (by omega)]
  refine ⟨rfl, rfl, rfl, ?_⟩
  intro bs2 hbs2
  show (e1000_try_recv_packet s bs2 ns).ret = 0 ∧ _ ∧ _
  unfold e1000_try_recv_packet
  rw [if_neg hdd, if_neg (by omega)]
  exact ⟨rfl, rfl, rfl⟩

/-- Witness for claim C9: on a concrete ring whose next slot holds a 3-byte
packet, a 2-byte buffer fails with the invalid-argument error and a 3-byte
retry retrieves the packet. -/
theorem e1000_try_recv_packet_too_small_witness :
    1 = (nic0.rdt + 1) % E1000_RX_DESCRIPTORS_COUNT ∧
    (nic0.rx_ring.getD 1 default).status &&& E1000_TX_DX_STAT_DD ≠ 0 ∧
    2 < (nic0.rx_ring.getD 1 default).length ∧
    (e1000_try_recv_packet nic0 2 false).ret = -E_INVAL ∧
    (e1000_try_recv_packet (e1000_try_recv_packet nic0 2 false).st 3 false).data_out =
      some [5, 6, 7] := by
  have h := e1000_try_recv_packet_too_small nic0 2 false 1 (by decide) (by decide) (by decide)
  refine ⟨by decide, by decide, by decide, h.1, ?_⟩
  have h2 := (h.2.2.2 3 (by decide)).2.1
  rw [h2]
  decide

/-- Claim C10: with a non-null packet-size out-pointer, a receive attempt
that finds a pending packet writes that packet's length through the pointer
even when it then fails with buffer-too-small, and an attempt that finds
the queue empty writes nothing through it. -/
theorem e1000_try_recv_packet_size_out (s : E1000) (buffer_size : Nat) (tail : Nat)
    (htail : tail = (s.rdt + 1) % E1000_RX_DESCRIPTORS_COUNT) :
    ((s.rx_ring.getD tail default).status &&& E1000_TX_DX_STAT_DD ≠ 0 →
       (e1000_try_recv_packet s buffer_size false).size_out =
         some (s.rx_ring.getD tail default).length) ∧
    ((s.rx_ring.getD tail default).status &&& E1000_TX_DX_STAT_DD = 0 →
       (e1000_try_recv_packet s buffer_size false).ret = -E_NET_QUEUE_EMPTY ∧
       (e1000_try_recv_packet s buffer_size false).size_out = none ∧
       (e1000_try_recv_packet s buffer_size false).st = s ∧
       (e1000_try_recv_packet s buffer_size false).data_out = none) := by
  subst htail
  constructor
  · intro hdd
    unfold e1000_try_recv_packet
    rw [if_neg hdd]
    by_cases hsz : (s.rx_ring.getD ((s.rdt + 1) % E1000_RX_DESCRIPTORS_COUNT) default).length >
        buffer_size
    · rw [if_pos hsz]
      simp
    · rw [if_neg hsz]
      simp
  · intro hdd
    unfold e1000_try_recv_packet
    rw [if_pos hdd]
    exact ⟨rfl, rfl, rfl, rfl⟩

/-- Witness for claim C10: on the concrete ring, a too-small buffer call
still reports the 3-byte length, and an empty ring reports nothing. -/
theorem e1000_try_recv_packet_size_out_witness :
    1 = (nic0.rdt + 1) % E1000_RX_DESCRIPTORS_COUNT ∧
    (nic0.rx_ring.getD 1 default).status &&& E1000_TX_DX_STAT_DD ≠ 0 ∧
    (e1000_try_recv_packet nic0 2 false).size_out = some 3 := by
  have h := e1000_try_recv_packet_size_out nic0 2 1 (by decide)
  refine ⟨by decide, by decide, ?_⟩
  rw [h.1 (by decide)]
  decide

/-- Claim C2: a send to a resolved target that is not marked receiving
fails with the not-receiving error and returns the kernel state completely
unchanged; and after any successful send to a target, a second send to the
same target observes the not-receiving error, so of two sends into one
pending receive at most the first can succeed. -/
theorem sys_ipc_try_send_exclusive (s : Kernel)
    (envid v1 sv1 p1 v2 sv2 p2 di : Nat)
    (hdi : envid2env s envid false = Except.ok di) :
    ((s.envs.getD di default).env_ipc_recving = false →
       sys_ipc_try_send s envid v1 sv1 p1 = (-E_IPC_NOT_RECV, s)) ∧
    ((sys_ipc_try_send s envid v1 sv1 p1).1 = 0 →
       (sys_ipc_try_send (sys_ipc_try_send s envid v1 sv1 p1).2 envid v2 sv2 p2).1 =
         -E_IPC_NOT_RECV) := by
  constructor
  · intro hr
    exact send_not_recv s envid v1 sv1 p1 di hdi hr
  · intro h0
    obtain ⟨d2, hstate, hrt, hrecv, hstat, hid, -, -, -, -, -, -⟩ :=
      sys_ipc_try_send_ok s envid v1 sv1 p1 di hdi h0
    have hlen : di < s.envs.length := by
      by_contra hnot
      push_neg at hnot
      rw [getD_eq_default s.envs di default hnot] at hrt
      exact absurd hrt (by decide)
    rw [hstate]
    have hdi2 := envid2env_set_stable s envid di d2 hdi hid (by rw [hstat]; decide)
    have hr2 : (({ s with envs := s.envs.set di d2 } : Kernel).envs.getD di
        default).env_ipc_recving = false := by
      show ((s.envs.set di d2).getD di default).env_ipc_recving = false
      rw [getD_set_self s.envs di d2 default hlen]
      exact hrecv
    rw [send_not_recv { s with envs := s.envs.set di d2 } envid v2 sv2 p2 di hdi2 hr2]

/-- Witness for claim C2: on a concrete state with a pending receiver, the
first send succeeds and an immediate second send to the same handle fails
with the not-receiving error. -/
theorem sys_ipc_try_send_exclusive_witness :
    envid2env k_ipc 1025 false = Except.ok 1 ∧
    (k_ipc.envs.getD 1 default).env_ipc_recving = true ∧
    (sys_ipc_try_send k_ipc 1025 7 0 5).1 = 0 ∧
    (sys_ipc_try_send (sys_ipc_try_send k_ipc 1025 7 0 5).2 1025 8 0 5).1 =
      -E_IPC_NOT_RECV := by
  have h := sys_ipc_try_send_exclusive k_ipc 1025 7 0 5 8 0 5 1 (by decide)
  exact ⟨by decide, by decide, by decide, h.2 (by decide)⟩

/-- Claim C1 (amended): every successful send updates exactly the
receiver's slot; on return the receiving flag is cleared, the sender
identity and value are populated, the run state is runnable and the paused
receive's return register is zeroed, all in the same step; a page is
mapped into the receiver at its recorded destination address with the
sender-specified permissions, and the permissions field set to those
permissions, exactly when the sender supplied a valid mapped source page
below the user/kernel split and the receiver's recorded destination address
is below the split; when the sender supplied no source page the permissions
field is reset to zero and the receiver's address space is unchanged; when
the sender supplied a source page but the recorded destination address is
not below the split, the receiver's address space is unchanged and the
permissions field retains its previous value. -/
theorem sys_ipc_try_send_delivery (s : Kernel) (envid value srcva perm di : Nat)
    (hdi : envid2env s envid false = Except.ok di)
    (h0 : (sys_ipc_try_send s envid value srcva perm).1 = 0) :
    ∃ d2 : Env,
      (sys_ipc_try_send s envid value srcva perm).2 =
        { s with envs := s.envs.set di d2 } ∧
      (s.envs.getD di default).env_ipc_recving = true ∧
      d2.env_ipc_recving = false ∧
      d2.env_status = EnvStatus.ENV_RUNNABLE ∧
      d2.env_ipc_from = (curenv s).env_id ∧
      d2.env_ipc_value = value ∧
      d2.env_tf = { (s.envs.getD di default).env_tf with reg_eax := 0 } ∧
      (if srcva < UTOP then
         ∃ pp pte, page_lookup (curenv s).env_pgdir srcva = some (pp, pte) ∧
           (if (s.envs.getD di default).env_ipc_dstva < UTOP then
              page_lookup d2.env_pgdir (s.envs.getD di default).env_ipc_dstva =
                  some (pp, perm) ∧
                d2.env_ipc_perm = perm
            else d2.env_pgdir = (s.envs.getD di default).env_pgdir ∧
              d2.env_ipc_perm = (s.envs.getD di default).env_ipc_perm)
       else d2.env_pgdir = (s.envs.getD di default).env_pgdir ∧
         d2.env_ipc_perm = 0) := by
  obtain ⟨d2, hstate, hrt, hrecv, hstat, -, -, hfrom, hval, htf, -, hpage⟩ :=
    sys_ipc_try_send_ok s envid value srcva perm di hdi h0
  refine ⟨d2, hstate, hrt, hrecv, hstat, hfrom, hval, htf, ?_⟩
  by_cases hs : srcva < UTOP
  · rw [if_pos hs] at hpage ⊢
    obtain ⟨pp, pte, hlk, hrest⟩ := hpage
    refine ⟨pp, pte, hlk, ?_⟩
    by_cases hd : (s.envs.getD di default).env_ipc_dstva < UTOP
    · rw [if_pos hd] at hrest ⊢
      obtain ⟨hpg, hperm⟩ := hrest
      refine ⟨?_, hperm⟩
      rw [hpg]
      exact page_lookup_insert (s.envs.getD di default).env_pgdir pp
        (s.envs.getD di default).env_ipc_dstva perm
    · rw [if_neg hd] at hrest ⊢
      exact hrest
  · rw [if_neg hs] at hpage ⊢
    exact hpage

/-- Witness for claim C1: on a concrete state with a pending receiver that
asked for a page at `0x2000`, a send with a valid source page succeeds and
the amended delivery post-condition holds. -/
theorem sys_ipc_try_send_delivery_witness :
    envid2env k_ipc 1025 false = Except.ok 1 ∧
    (sys_ipc_try_send k_ipc 1025 7 0 5).1 = 0 ∧
    (∃ d2 : Env,
      (sys_ipc_try_send k_ipc 1025 7 0 5).2 =
        { k_ipc with envs := k_ipc.envs.set 1 d2 } ∧
      (k_ipc.envs.getD 1 default).env_ipc_recving = true ∧
      d2.env_ipc_recving = false ∧
      d2.env_status = EnvStatus.ENV_RUNNABLE ∧
      d2.env_ipc_from = (curenv k_ipc).env_id ∧
      d2.env_ipc_value = 7 ∧
      d2.env_tf = { (k_ipc.envs.getD 1 default).env_tf with reg_eax := 0 } ∧
      (if 0 < UTOP then
         ∃ pp pte, page_lookup (curenv k_ipc).env_pgdir 0 = some (pp, pte) ∧
           (if (k_ipc.envs.getD 1 default).env_ipc_dstva < UTOP then
              page_lookup d2.env_pgdir (k_ipc.envs.getD 1 default).env_ipc_dstva =
                  some (pp, 5) ∧
                d2.env_ipc_perm = 5
            else d2.env_pgdir = (k_ipc.envs.getD 1 default).env_pgdir ∧
              d2.env_ipc_perm = (k_ipc.envs.getD 1 default).env_ipc_perm)
       else d2.env_pgdir = (k_ipc.envs.getD 1 default).env_pgdir ∧
         d2.env_ipc_perm = 0)) :=
  ⟨by decide, by decide,
    sys_ipc_try_send_delivery k_ipc 1025 7 0 5 1 (by decide) (by decide)⟩

/-- Counterexample for claim C1 as stated: with the receiver's recorded
destination address not below the user/kernel split and a sender that does
supply a source page, the send succeeds and transfers no page, but the
receiver's permissions mailbox field is not populated: it keeps its stale
pre-send contents `0xE07`, which is neither the sender's permission word `5`
nor the documented no-transfer value `0`. -/
theorem sys_ipc_try_send_stale_perm_cex :
    (sys_ipc_try_send k_stale 1025 7 0 5).1 = 0 ∧
    ((sys_ipc_try_send k_stale 1025 7 0 5).2.envs.getD 1 default).env_pgdir =
      (k_stale.envs.getD 1 default).env_pgdir ∧
    ((sys_ipc_try_send k_stale 1025 7 0 5).2.envs.getD 1 default).env_ipc_perm = 0xE07 ∧
    ¬ ((sys_ipc_try_send k_stale 1025 7 0 5).2.envs.getD 1 default).env_ipc_perm = 0 ∧
    ¬ ((sys_ipc_try_send k_stale 1025 7 0 5).2.envs.getD 1 default).env_ipc_perm = 5 := by
  decide

/-- Claim C6: after a successful `sys_page_map`, looking the destination
address up in the target environment yields the same physical page as the
source mapping with exactly the requested permissions, and write access was
only granted when the source mapping had it; a call requesting the writable
bit on a non-writable source mapping fails with the invalid-argument error
and returns the state unchanged. -/
theorem sys_page_map_spec (s : Kernel) (srcenvid srcva dstenvid dstva perm si di : Nat)
    (hsi : envid2env s srcenvid true = Except.ok si)
    (hdi : envid2env s dstenvid true = Except.ok di)
    (hdl : di < s.envs.length) :
    ((sys_page_map s srcenvid srcva dstenvid dstva perm).1 = 0 →
       ∃ pp pte,
         page_lookup (s.envs.getD si default).env_pgdir srcva = some (pp, pte) ∧
         page_lookup ((sys_page_map s srcenvid srcva dstenvid dstva perm).2.envs.getD di
             default).env_pgdir dstva = some (pp, perm) ∧
         (perm &&& PTE_W ≠ 0 → pte &&& PTE_W ≠ 0)) ∧
    (∀ pp pte,
       page_lookup (s.envs.getD si default).env_pgdir srcva = some (pp, pte) →
       perm &&& PTE_W ≠ 0 → pte &&& PTE_W = 0 →
       sys_page_map s srcenvid srcva dstenvid dstva perm = (-E_INVAL, s)) := by
  constructor
  · intro h0
    by_cases haddr : UTOP ≤ srcva ∨ srcva % PGSIZE ≠ 0 ∨ UTOP ≤ dstva ∨ dstva % PGSIZE ≠ 0
    · rw [page_map_err_addr s srcenvid srcva dstenvid dstva perm si di hsi hdi haddr] at h0
      simp [E_INVAL] at h0
    · by_cases hp : perm &&& NOT_PTE_SYSCALL ≠ 0 ∨ perm &&& (PTE_U ||| PTE_P) = 0
      · rw [page_map_err_perm s srcenvid srcva dstenvid dstva perm si di hsi hdi haddr hp] at h0
        simp [E_INVAL] at h0
      · cases hlk : page_lookup (s.envs.getD si default).env_pgdir srcva with
        | none =>
          rw [page_map_err_unmapped s srcenvid srcva dstenvid dstva perm si di
            hsi hdi haddr hp hlk] at h0
          simp [E_INVAL] at h0
        | some v =>
          obtain ⟨pp, pte⟩ := v
          by_cases hw : perm &&& PTE_W ≠ 0 ∧ pte &&& PTE_W = 0
          · rw [page_map_err_escalate s srcenvid srcva dstenvid dstva perm si di pp pte
              hsi hdi haddr hp hlk hw] at h0
            simp [E_INVAL] at h0
          · refine ⟨pp, pte, rfl, ?_, ?_⟩
            · rw [page_map_ok s srcenvid srcva dstenvid dstva perm si di pp pte
                hsi hdi haddr hp hlk hw]
              show page_lookup ((s.envs.set di _).getD di default).env_pgdir dstva = _
              rw [getD_set_self s.envs di _ default hdl]
              exact page_lookup_insert (s.envs.getD di default).env_pgdir pp dstva perm
            · intro hWp hpte
              exact hw ⟨hWp, hpte⟩
  · intro pp pte hlk hWp hpte
    by_cases haddr : UTOP ≤ srcva ∨ srcva % PGSIZE ≠ 0 ∨ UTOP ≤ dstva ∨ dstva % PGSIZE ≠ 0
    · exact page_map_err_addr s srcenvid srcva dstenvid dstva perm si di hsi hdi haddr
    · by_cases hp : perm &&& NOT_PTE_SYSCALL ≠ 0 ∨ perm &&& (PTE_U ||| PTE_P) = 0
      · exact page_map_err_perm s srcenvid srcva dstenvid dstva perm si di hsi hdi haddr hp
      · exact page_map_err_escalate s srcenvid srcva dstenvid dstva perm si di pp pte
          hsi hdi haddr hp hlk ⟨hWp, hpte⟩

/-- Witness for claim C6: mapping the sender's page 0 into the receiver at
`0x2000` read-only succeeds, and the receiver sees physical page 42 with
permission present+user. -/
theorem sys_page_map_spec_witness :
    envid2env k_ipc 0 true = Except.ok 0 ∧
    envid2env k_ipc 1025 true = Except.ok 1 ∧
    1 < k_ipc.envs.length ∧
    (sys_page_map k_ipc 0 0 1025 8192 5).1 = 0 ∧
    (∃ pp pte,
       page_lookup (k_ipc.envs.getD 0 default).env_pgdir 0 = some (pp, pte) ∧
       page_lookup ((sys_page_map k_ipc 0 0 1025 8192 5).2.envs.getD 1
           default).env_pgdir 8192 = some (pp, 5) ∧
       (5 &&& PTE_W ≠ 0 → pte &&& PTE_W ≠ 0)) := by
  have h := sys_page_map_spec k_ipc 0 0 1025 8192 5 0 1 (by decide) (by decide) (by decide)
  exact ⟨by decide, by decide, by decide, by decide, h.1 (by decide)⟩

/-- Claim C3: for every present mapping of the calling environment below
the user/kernel split, `duppage` installs it in the child as
present+user+COW (a non-writable permission word) and re-installs the
identical restricted mapping in the parent when the mapping was writable or
COW-marked; otherwise it installs the same present+user read-only mapping
in the child and leaves the parent's environment untouched. -/
theorem duppage_spec (s : Kernel) (envid pn ci pp pte : Nat)
    (hci : envid2env s envid true = Except.ok ci)
    (hcl : ci < s.envs.length)
    (hcur : s.cur < s.envs.length)
    (hne : ci ≠ s.cur)
    (hva : pn * PGSIZE < UTOP)
    (hlk : page_lookup (curenv s).env_pgdir (pn * PGSIZE) = some (pp, pte))
    (hP : pte &&& PTE_P ≠ 0) :
    (if pte &&& (PTE_W ||| PTE_COW) ≠ 0 then
       (duppage s envid pn).1 = 0 ∧
       page_lookup ((duppage s envid pn).2.envs.getD ci default).env_pgdir (pn * PGSIZE) =
         some (pp, PTE_P ||| PTE_U ||| PTE_COW) ∧
       page_lookup ((duppage s envid pn).2.envs.getD s.cur default).env_pgdir (pn * PGSIZE) =
         some (pp, PTE_P ||| PTE_U ||| PTE_COW) ∧
       (PTE_P ||| PTE_U ||| PTE_COW) &&& PTE_W = 0
     else
       (duppage s envid pn).1 = 0 ∧
       page_lookup ((duppage s envid pn).2.envs.getD ci default).env_pgdir (pn * PGSIZE) =
         some (pp, PTE_P ||| PTE_U) ∧
       (duppage s envid pn).2.envs.getD s.cur default = s.envs.getD s.cur default) := by
  have hsi0 : envid2env s 0 true = Except.ok s.cur := by
    unfold envid2env
    simp
  have haddr : ¬ (UTOP ≤ pn * PGSIZE ∨ pn * PGSIZE % PGSIZE ≠ 0 ∨
      UTOP ≤ pn * PGSIZE ∨ pn * PGSIZE % PGSIZE ≠ 0) := by
    push_neg
    refine ⟨by omega, by simp [Nat.mul_mod_left], by omega, by simp [Nat.mul_mod_left]⟩
  have hlkcur : page_lookup (s.envs.getD s.cur default).env_pgdir (pn * PGSIZE) =
      some (pp, pte) := hlk
  by_cases hwc : pte &&& (PTE_W ||| PTE_COW) ≠ 0
  · rw [if_pos hwc]
    have hp : ¬ ((PTE_P ||| PTE_U ||| PTE_COW) &&& NOT_PTE_SYSCALL ≠ 0 ∨
        (PTE_P ||| PTE_U ||| PTE_COW) &&& (PTE_U ||| PTE_P) = 0) := by decide
    have hw : ¬ ((PTE_P ||| PTE_U ||| PTE_COW) &&& PTE_W ≠ 0 ∧ pte &&& PTE_W = 0) := by
      intro h
      exact absurd h.1 (by decide)
    have hmap1 := page_map_ok s 0 (pn * PGSIZE) envid (pn * PGSIZE)
      (PTE_P ||| PTE_U ||| PTE_COW) s.cur ci pp pte hsi0 hci haddr hp hlkcur hw
    set s1 : Kernel := { s with envs := s.envs.set ci { (s.envs.getD ci default) with
      env_pgdir := page_insert (s.envs.getD ci default).env_pgdir pp (pn * PGSIZE)
        (PTE_P ||| PTE_U ||| PTE_COW) } } with hs1
    have hsi1 : envid2env s1 0 true = Except.ok s.cur := by
      unfold envid2env
      simp [hs1]
    have hsame : s1.envs.getD s.cur default = s.envs.getD s.cur default := by
      rw [hs1]
      exact getD_set_ne s.envs ci s.cur _ default hne
    have hlk1 : page_lookup (s1.envs.getD s.cur default).env_pgdir (pn * PGSIZE) =
        some (pp, pte) := by
      rw [hsame]
      exact hlkcur
    have hmap2 := page_map_ok s1 0 (pn * PGSIZE) 0 (pn * PGSIZE)
      (PTE_P ||| PTE_U ||| PTE_COW) s.cur s.cur pp pte hsi1 hsi1 haddr hp hlk1 hw
    unfold duppage
    simp only [hlk, eq_false hP, eq_true hwc, if_true, if_false]
    rw [hmap1]
    rw [if_neg (by simp)]
    rw [hmap2]
    rw [if_neg (by simp)]
    refine ⟨rfl, ?_, ?_, by decide⟩
    · show page_lookup (((s1.envs.set s.cur _).getD ci default)).env_pgdir _ = _
      rw [getD_set_ne s1.envs s.cur ci _ default (Ne.symm hne)]
      rw [hs1]
      show page_lookup (((s.envs.set ci _).getD ci default)).env_pgdir _ = _
      rw [getD_set_self s.envs ci _ default hcl]
      exact page_lookup_insert (s.envs.getD ci default).env_pgdir pp (pn * PGSIZE)
        (PTE_P ||| PTE_U ||| PTE_COW)
    · show page_lookup (((s1.envs.set s.cur _).getD s.cur default)).env_pgdir _ = _
      rw [getD_set_self s1.envs s.cur _ default (by rw [hs1]; simpa using hcur)]
      exact page_lookup_insert (s1.envs.getD s.cur default).env_pgdir pp (pn * PGSIZE)
        (PTE_P ||| PTE_U ||| PTE_COW)
  · rw [if_neg hwc]
    have hp : ¬ ((PTE_P ||| PTE_U) &&& NOT_PTE_SYSCALL ≠ 0 ∨
        (PTE_P ||| PTE_U) &&& (PTE_U ||| PTE_P) = 0) := by decide
    have hw : ¬ ((PTE_P ||| PTE_U) &&& PTE_W ≠ 0 ∧ pte &&& PTE_W = 0) := by
      intro h
      exact absurd h.1 (by decide)
    have hmap := page_map_ok s 0 (pn * PGSIZE) envid (pn * PGSIZE)
      (PTE_P ||| PTE_U) s.cur ci pp pte hsi0 hci haddr hp hlkcur hw
    unfold duppage
    simp only [hlk, eq_false hP, eq_false hwc, if_true, if_false]
    rw [hmap]
    rw [if_neg (by simp)]
    refine ⟨rfl, ?_, ?_⟩
    · show page_lookup (((s.envs.set ci _).getD ci default)).env_pgdir _ = _
      rw [getD_set_self s.envs ci _ default hcl]
      exact page_lookup_insert (s.envs.getD ci default).env_pgdir pp (pn * PGSIZE)
        (PTE_P ||| PTE_U)
    · show ((s.envs.set ci _).getD s.cur default) = s.envs.getD s.cur default
      exact getD_set_ne s.envs ci s.cur _ default hne

/-- Witness for claim C3: duplicating the parent's writable page 0 into the
child environment installs present+user+COW on both sides. -/
theorem duppage_spec_witness :
    envid2env k_ipc 1025 true = Except.ok 1 ∧
    1 < k_ipc.envs.length ∧
    k_ipc.cur < k_ipc.envs.length ∧
    (1 : Nat) ≠ k_ipc.cur ∧
    0 * PGSIZE < UTOP ∧
    page_lookup (curenv k_ipc).env_pgdir (0 * PGSIZE) = some (42, 7) ∧
    7 &&& PTE_P ≠ 0 ∧
    (if 7 &&& (PTE_W ||| PTE_COW) ≠ 0 then
       (duppage k_ipc 1025 0).1 = 0 ∧
       page_lookup ((duppage k_ipc 1025 0).2.envs.getD 1 default).env_pgdir (0 * PGSIZE) =
         some (42, PTE_P ||| PTE_U ||| PTE_COW) ∧
       page_lookup ((duppage k_ipc 1025 0).2.envs.getD k_ipc.cur
           default).env_pgdir (0 * PGSIZE) =
         some (42, PTE_P ||| PTE_U ||| PTE_COW) ∧
       (PTE_P ||| PTE_U ||| PTE_COW) &&& PTE_W = 0
     else
       (duppage k_ipc 1025 0).1 = 0 ∧
       page_lookup ((duppage k_ipc 1025 0).2.envs.getD 1 default).env_pgdir (0 * PGSIZE) =
         some (42, PTE_P ||| PTE_U) ∧
       (duppage k_ipc 1025 0).2.envs.getD k_ipc.cur default =
         k_ipc.envs.getD k_ipc.cur default) :=
  ⟨by decide, by decide, by decide, by decide, by decide, by decide, by decide,
    duppage_spec k_ipc 1025 0 1 42 7 (by decide) (by decide) (by decide) (by decide)
      (by decide) (by decide) (by decide)⟩

/-- Claim C4: every successful `sys_exofork` fills a previously free slot
with a new environment that is not runnable, whose saved registers are a
copy of the caller's with a zeroed return-value register (so the child
observes 0 when first run), whose parent is the caller, and whose handle --
returned to the caller -- is positive and generation-tagged: its index part
is the slot and its incarnation part is the slot's previous incarnation
plus one. -/
theorem sys_exofork_spec (s : Kernel)
    (hN : s.envs.length ≤ NENV)
    (hcs : (s.envs.getD s.cur default).env_status ≠ EnvStatus.ENV_FREE)
    (h0 : 0 ≤ (sys_exofork s).1) :
    ∃ idx e2,
      idx < s.envs.length ∧
      (s.envs.getD idx default).env_status = EnvStatus.ENV_FREE ∧
      (sys_exofork s).2.envs = s.envs.set idx e2 ∧
      (sys_exofork s).2.cur = s.cur ∧
      e2.env_status = EnvStatus.ENV_NOT_RUNNABLE ∧
      e2.env_tf = { (curenv s).env_tf with reg_eax := 0 } ∧
      e2.env_parent_id = (curenv s).env_id ∧
      (sys_exofork s).1 = Int.ofNat e2.env_id ∧
      0 < e2.env_id ∧
      e2.env_id % NENV = idx ∧
      e2.env_id / NENV = (s.envs.getD idx default).env_id / NENV + 1 := by
  cases hff : find_free s.envs 0 with
  | none =>
    have hbad : sys_exofork s = (-E_NO_FREE_ENV, s) := by
      unfold sys_exofork env_alloc
      simp only [hff]
    rw [hbad] at h0
    simp [E_NO_FREE_ENV] at h0
  | some idx =>
    obtain ⟨-, hlt0, hfree0⟩ := find_free_spec s.envs 0 idx hff
    have hlt : idx < s.envs.length := by simpa using hlt0
    have hfree : (s.envs.getD idx default).env_status = EnvStatus.ENV_FREE := by
      simpa using hfree0
    have hnecur : idx ≠ s.cur := by
      intro he
      rw [he] at hfree
      exact hcs hfree
    have hexo : sys_exofork s =
        (Int.ofNat (((s.envs.getD idx default).env_id / NENV + 1) * NENV + idx),
         { s with envs := s.envs.set idx {
              env_id := ((s.envs.getD idx default).env_id / NENV + 1) * NENV + idx,
              env_parent_id := (curenv s).env_id,
              env_status := EnvStatus.ENV_NOT_RUNNABLE,
              env_pgdir := ([] : List (Nat × Nat × Nat)),
              env_tf := { (curenv s).env_tf with reg_eax := 0 },
              env_pgfault_upcall := 0,
              env_ipc_recving := false,
              env_ipc_dstva := 0,
              env_ipc_from := 0,
              env_ipc_value := 0,
              env_ipc_perm := 0 } }) := by
      unfold sys_exofork env_alloc curenv
      simp only [hff]
      rw [getD_set_self s.envs idx _ default hlt]
      rw [getD_set_ne s.envs idx s.cur _ default hnecur]
      rw [List.set_set]
    refine ⟨idx, {
        env_id := ((s.envs.getD idx default).env_id / NENV + 1) * NENV + idx,
        env_parent_id := (curenv s).env_id,
        env_status := EnvStatus.ENV_NOT_RUNNABLE,
        env_pgdir := ([] : List (Nat × Nat × Nat)),
        env_tf := { (curenv s).env_tf with reg_eax := 0 },
        env_pgfault_upcall := 0,
        env_ipc_recving := false,
        env_ipc_dstva := 0,
        env_ipc_from := 0,
        env_ipc_value := 0,
        env_ipc_perm := 0 }, hlt, hfree, ?_, ?_, rfl, rfl, rfl, ?_, ?_, ?_, ?_⟩
    · rw [hexo]
    · rw [hexo]
    · rw [hexo]
    · show 0 < ((s.envs.getD idx default).env_id / NENV + 1) * NENV + idx
      have hnenv : NENV = 1024 := rfl
      rw [hnenv]
      omega
    · show (((s.envs.getD idx default).env_id / NENV + 1) * NENV + idx) % NENV = idx
      rw [Nat.mul_comm, Nat.mul_add_mod]
      exact Nat.mod_eq_of_lt (lt_of_lt_of_le hlt hN)
    · show (((s.envs.getD idx default).env_id / NENV + 1) * NENV + idx) / NENV =
        (s.envs.getD idx default).env_id / NENV + 1
      rw [Nat.mul_comm, Nat.mul_add_div (by decide : 0 < NENV)]
      rw [Nat.div_eq_of_lt (lt_of_lt_of_le hlt hN)]

/-- An unused slot of the environment table. -/
def env_free_slot : Env :=
  { env_id := 0
    env_parent_id := 0
    env_status := EnvStatus.ENV_FREE
    env_pgdir := []
    env_tf := tf0
    env_pgfault_upcall := 0
    env_ipc_recving := false
    env_ipc_dstva := 0
    env_ipc_from := 0
    env_ipc_value := 0
    env_ipc_perm := 0 }

/-- A runnable caller in slot 0 and a free slot 1. -/
def k_fork : Kernel := { envs := [env_a, env_free_slot], cur := 0, page_free_list := [] }

/-- Witness for claim C4: forking from the concrete two-slot state succeeds
and the new environment satisfies the fork-once/observe-twice contract. -/
theorem sys_exofork_spec_witness :
    k_fork.envs.length ≤ NENV ∧
    (k_fork.envs.getD k_fork.cur default).env_status ≠ EnvStatus.ENV_FREE ∧
    0 ≤ (sys_exofork k_fork).1 ∧
    (∃ idx e2,
      idx < k_fork.envs.length ∧
      (k_fork.envs.getD idx default).env_status = EnvStatus.ENV_FREE ∧
      (sys_exofork k_fork).2.envs = k_fork.envs.set idx e2 ∧
      (sys_exofork k_fork).2.cur = k_fork.cur ∧
      e2.env_status = EnvStatus.ENV_NOT_RUNNABLE ∧
      e2.env_tf = { (curenv k_fork).env_tf with reg_eax := 0 } ∧
      e2.env_parent_id = (curenv k_fork).env_id ∧
      (sys_exofork k_fork).1 = Int.ofNat e2.env_id ∧
      0 < e2.env_id ∧
      e2.env_id % NENV = idx ∧
      e2.env_id / NENV = (k_fork.envs.getD idx default).env_id / NENV + 1) :=
  ⟨by decide, by decide, by decide,
    sys_exofork_spec k_fork (by decide) (by decide) (by decide)⟩

end Jos
